import Mathlib

/-!
Shallow embedding of the mqtt_fuota_duino library core
(src/mqtt_fuota_duino.cpp, src/mqtt_fuota_duino.h, src/mqtt_fuota_duino_def.h).

The MQTTFirmwareUpdate class state is modelled as the structure
`SessionState`; the external collaborators (the PubSubClient transport and
the `Update` storage writer) are modelled as boolean/function oracles passed
to each operation, and every externally visible action (publish, storage
command, restart) is recorded in a returned `Event` list.  All `uint32_t`
arithmetic carries an explicit `% 2 ^ 32`; `uint8_t` payload bytes are read
through `% 256`.
-/

namespace MqttFuota

/-- Firmware information record (`t_fw_info` in mqtt_fuota_duino_def.h):
`uint8_t version[3]`, `uint32_t size`, `char md5[32]` (the CRC field is
compiled out with `#if 0`). -/
structure FwInfo where
  version0 : Nat
  version1 : Nat
  version2 : Nat
  size : Nat
  md5 : String
deriving DecidableEq, Repr

/-- `t_server_request` enum from mqtt_fuota_duino_def.h. -/
inductive ServerRequest where
  | NONE
  | TRIGGER_FW_UPDATE_CHECK
  | FW_UPDATE
  | FUOTA_START
deriving DecidableEq, Repr

/-- Externally visible actions performed by the component: MQTT publishes,
storage-writer (`Update`) commands, topic subscriptions and device restart. -/
inductive Event where
  | publishControl (frame : List Nat)
  | updateAbort
  | updateBegin (size : Nat)
  | updateSetMD5 (md5 : String)
  | updateWrite (length : Nat)
  | updateRemaining
  | updateEnd
  | subscribeTopic (topic : String)
  | restartDevice
deriving DecidableEq, Repr

/-- Private attributes of the `MQTTFirmwareUpdate` class
(mqtt_fuota_duino.h, lines 160-258). -/
structure SessionState where
  is_initialized : Bool
  t0_subscribe : Nat
  subcribed_to_topic_ota_setup : Bool
  subcribed_to_topic_ota_data : Bool
  topic_sub_ota_setup : String
  topic_sub_ota_data : String
  topic_pub_ota_control : String
  topic_pub_ota_ack : String
  server_request : ServerRequest
  valid_update : Bool
  fuota_on_progress : Bool
  fw_update_completed : Bool
  fw_bytes_written : Nat
  fw_device : FwInfo
  fw_server : FwInfo
deriving DecidableEq, Repr

/-! ### Constants (mqtt_fuota_duino_def.h and mqtt_fuota_duino.h) -/

def MSG_SETUP_CMD_TRIGGER_FW_UPDATE_CHECK : Nat := 0x00
def MSG_SETUP_CMD_TRIGGER_FW_UPDATE_CHECK_LENGTH : Nat := 1
def MSG_SETUP_CMD_LAST_FW_INFO : Nat := 0x01
def MSG_SETUP_CMD_LAST_FW_INFO_LENGTH : Nat := 24
def MSG_SETUP_CMD_FUOTA_START : Nat := 0x02
def MSG_SETUP_CMD_FUOTA_START_LENGTH : Nat := 1

def MSG_CONTROL_CMD_FW_UPDATE_CHECK : List Nat := [0xaf, 0x12, 0x34, 0x56]
def MSG_CONTROL_CMD_REQUEST_FW_UPDATE : List Nat := [0x55, 0x55, 0xff, 0xff]
def MSG_ACK_FUOTA_START : List Nat := [0xaa, 0xaa, 0xaa, 0xaa]
def MSG_CONTROL_CMD_FW_UPDATE_COMPLETED_OK : List Nat := [0x55, 0xaa, 0xff, 0xff]
def MSG_CONTROL_CMD_FW_UPDATE_COMPLETED_FAIL : List Nat := [0x55, 0xaa, 0x00, 0x00]

def MAX_APP_SIZE : Nat := 4194304
def T_SUBSCRIBE : Nat := 5000
def MAX_TOPIC_LENGTH : Nat := 32
def U32_MOD : Nat := 2 ^ 32

/-! ### Auxiliary pure functions -/

/-- Read byte `i` of a `uint8_t*` payload: bytes are always below 256. -/
def payload_byte (p : List Nat) (i : Nat) : Nat :=
  p.getD i 0 % 256

/-- `big_endian_u32_read_from_array` (mqtt_fuota_duino.cpp, lines 688-696),
reading at offset `i` of the payload. -/
def big_endian_u32_read_from_array (p : List Nat) (i : Nat) : Nat :=
  payload_byte p i * 2 ^ 24 + payload_byte p (i + 1) * 2 ^ 16
    + payload_byte p (i + 2) * 2 ^ 8 + payload_byte p (i + 3)

/-- `u32_version_from_array` (mqtt_fuota_duino.cpp, lines 665-669):
`(ver_x << 16) + (ver_y << 8) + ver_z` on `uint8_t` inputs. -/
def u32_version_from_array (ver_x ver_y ver_z : Nat) : Nat :=
  (ver_x % 256) * 2 ^ 16 + (ver_y % 256) * 2 ^ 8 + ver_z % 256

/-- One uppercase hex digit, as produced by `sprintf("%02X", ...)`. -/
def hexDigit (n : Nat) : Char :=
  if n < 10 then Char.ofNat (48 + n) else Char.ofNat (55 + n)

/-- Two uppercase hex characters of one byte (`sprintf("%02X", b)`). -/
def byteToHex (b : Nat) : String :=
  String.mk [hexDigit (b % 256 / 16), hexDigit (b % 16)]

/-- The 32-char MD5 string built from payload bytes 8..23
(mqtt_fuota_duino.cpp, lines 314-320). -/
def md5_string_of_payload (p : List Nat) : String :=
  String.join ((List.range 16).map fun i => byteToHex (payload_byte p (8 + i)))

/-- `t_fw_info_clear` (mqtt_fuota_duino.cpp, lines 702-707). -/
def t_fw_info_clear : FwInfo :=
  { version0 := 0, version1 := 0, version2 := 0, size := 0, md5 := "" }

/-- The constructor `MQTTFirmwareUpdate::MQTTFirmwareUpdate`
(mqtt_fuota_duino.cpp, lines 109-127); `t0_subscribe = 0U - T_SUBSCRIBE`
wraps around in `unsigned long`. -/
def ctor : SessionState where
  is_initialized := false
  t0_subscribe := (U32_MOD - T_SUBSCRIBE) % U32_MOD
  subcribed_to_topic_ota_setup := false
  subcribed_to_topic_ota_data := false
  topic_sub_ota_setup := ""
  topic_sub_ota_data := ""
  topic_pub_ota_control := ""
  topic_pub_ota_ack := ""
  server_request := ServerRequest.NONE
  valid_update := false
  fuota_on_progress := false
  fw_update_completed := false
  fw_bytes_written := 0
  fw_device := t_fw_info_clear
  fw_server := t_fw_info_clear

/-- `snprintf(topic, MAX_TOPIC_LENGTH, "/%s/ota/<sfx>", device_id)`:
at most 31 characters are stored. -/
def format_topic (device_id sfx : String) : String :=
  ("/" ++ device_id ++ "/ota/" ++ sfx).take (MAX_TOPIC_LENGTH - 1)

/-- `MQTTFirmwareUpdate::init` as defined in mqtt_fuota_duino.cpp,
lines 150-187: it takes only the MQTT client (modelled by `client_valid`)
and the device id, sets up the four topic strings and marks the component
initialized.  It never assigns `fw_device`. -/
def init (s : SessionState) (client_valid : Bool) (device_id : String) :
    SessionState × Bool :=
  if client_valid = false then (s, false)
  else if s.is_initialized then (s, true)
  else
    ({ s with
        topic_sub_ota_setup := format_topic device_id "setup"
        topic_sub_ota_data := format_topic device_id "data"
        topic_pub_ota_control := format_topic device_id "control"
        topic_pub_ota_ack := format_topic device_id "ack"
        is_initialized := true }, true)

/-- `is_connected` (mqtt_fuota_duino.cpp, lines 560-567); `mqtt_connected`
models `MQTTClient->connected()`. -/
def is_connected (s : SessionState) (mqtt_connected : Bool) : Bool :=
  if s.is_initialized = false then false else mqtt_connected

/-- `publish_control_command` (mqtt_fuota_duino.cpp, lines 623-636): the
events it emits (one publish to the control topic when initialized and
connected, nothing otherwise). -/
def publish_control_command (s : SessionState) (mqtt_connected : Bool)
    (command : List Nat) : List Event :=
  if s.is_initialized = false then []
  else if is_connected s mqtt_connected = false then []
  else [Event.publishControl command]

/-! ### MQTT message reception handlers -/

/-- `mqtt_msg_rx_ota_setup` (mqtt_fuota_duino.cpp, lines 273-348).  The
payload length is the length of the byte list. -/
def mqtt_msg_rx_ota_setup (s : SessionState) (payload : List Nat) :
    SessionState :=
  let length := payload.length
  if length = 0 then s
  else if payload_byte payload 0 = MSG_SETUP_CMD_TRIGGER_FW_UPDATE_CHECK then
    if length ≠ MSG_SETUP_CMD_TRIGGER_FW_UPDATE_CHECK_LENGTH then s
    else { s with server_request := ServerRequest.TRIGGER_FW_UPDATE_CHECK }
  else if payload_byte payload 0 = MSG_SETUP_CMD_LAST_FW_INFO then
    if length ≠ MSG_SETUP_CMD_LAST_FW_INFO_LENGTH then s
    else
      { s with
          fw_server :=
            { version0 := payload_byte payload 1
              version1 := payload_byte payload 2
              version2 := payload_byte payload 3
              size := big_endian_u32_read_from_array payload 4
              md5 := md5_string_of_payload payload }
          server_request := ServerRequest.FW_UPDATE }
  else if payload_byte payload 0 = MSG_SETUP_CMD_FUOTA_START then
    if length ≠ MSG_SETUP_CMD_FUOTA_START_LENGTH then s
    else { s with server_request := ServerRequest.FUOTA_START }
  else s

/-- `mqtt_msg_rx_ota_data` (mqtt_fuota_duino.cpp, lines 361-390).
`wr` models `Update.write`: given the requested length it returns the
number of bytes actually written.  The clamp comparison
`fw_bytes_written + length > fw_server.size` is `uint32_t` arithmetic, so
the sum wraps at `2 ^ 32`; so do the clamped length and the new counter. -/
def mqtt_msg_rx_ota_data (wr : Nat → Nat) (s : SessionState) (length : Nat) :
    SessionState × List Event :=
  if s.valid_update = false then (s, [])
  else if s.fuota_on_progress = false then (s, [])
  else
    let len2 :=
      if s.fw_server.size < (s.fw_bytes_written + length) % U32_MOD then
        (U32_MOD + s.fw_server.size - s.fw_bytes_written) % U32_MOD
      else length
    let nw := (s.fw_bytes_written + wr len2) % U32_MOD
    ({ s with
        fw_bytes_written := nw
        fw_update_completed :=
          if s.fw_server.size ≤ nw then true else s.fw_update_completed },
     [Event.updateWrite len2])

/-- `mqtt_msg_rx` (mqtt_fuota_duino.cpp, lines 228-253): dispatch of a
received message by topic, returning the new state, the `msg_handled`
boolean and the emitted events. -/
def mqtt_msg_rx (wr : Nat → Nat) (s : SessionState) (topic : String)
    (payload : List Nat) : SessionState × Bool × List Event :=
  if s.subcribed_to_topic_ota_setup = false
      ∨ s.subcribed_to_topic_ota_data = false then (s, false, [])
  else if topic = s.topic_sub_ota_setup then
    (mqtt_msg_rx_ota_setup s payload, true, [])
  else if topic = s.topic_sub_ota_data then
    let r := mqtt_msg_rx_ota_data wr s payload.length
    (r.1, true, r.2)
  else (s, false, [])

/-! ### FUOTA process handlers -/

/-- `handle_server_requests` (mqtt_fuota_duino.cpp, lines 400-482): three
sequential `if` blocks, each consuming `server_request` first.
`mqtt_connected` models `MQTTClient->connected()` inside the publish calls;
`begin_ok` models the result of `Update.begin(fw_server.size)`. -/
def handle_server_requests (mqtt_connected begin_ok : Bool)
    (s : SessionState) : SessionState × List Event :=
  let r1 :=
    if s.server_request = ServerRequest.TRIGGER_FW_UPDATE_CHECK then
      let s' := { s with
        server_request := ServerRequest.NONE
        fw_server := { version0 := 0, version1 := 0, version2 := 0,
                       size := 0, md5 := "" } }
      (s', publish_control_command s' mqtt_connected
        MSG_CONTROL_CMD_FW_UPDATE_CHECK)
    else (s, ([] : List Event))
  let r2 :=
    if r1.1.server_request = ServerRequest.FW_UPDATE then
      let sA := { r1.1 with server_request := ServerRequest.NONE }
      if sA.fw_server.size = 0 ∨ MAX_APP_SIZE < sA.fw_server.size then
        (sA, ([] : List Event))
      else
        let devv := u32_version_from_array sA.fw_device.version0
          sA.fw_device.version1 sA.fw_device.version2
        let srvv := u32_version_from_array sA.fw_server.version0
          sA.fw_server.version1 sA.fw_server.version2
        if srvv ≠ 0 ∧ srvv ≤ devv then (sA, ([] : List Event))
        else
          let sB := { sA with valid_update := true }
          (sB, publish_control_command sB mqtt_connected
            MSG_CONTROL_CMD_REQUEST_FW_UPDATE)
    else r1
  if r2.1.server_request = ServerRequest.FUOTA_START then
    let sA := { r2.1 with server_request := ServerRequest.NONE }
    let evs := r2.2 ++ [Event.updateAbort, Event.updateBegin sA.fw_server.size]
    if begin_ok = false then (sA, evs)
    else
      let sB := { sA with
        fw_bytes_written := 0
        fw_server := { sA.fw_server with md5 := "" }
        fuota_on_progress := true }
      (sB, evs ++ [Event.updateSetMD5 sA.fw_server.md5]
        ++ publish_control_command sB mqtt_connected MSG_ACK_FUOTA_START)
  else r2

/-- `handle_received_fw_data` (mqtt_fuota_duino.cpp, lines 489-542).
`hasError1` models the first `Update.hasError()` check, `hasError2` the one
after `Update.remaining()`, and `end_ok` the result of `Update.end()`. -/
def handle_received_fw_data (mqtt_connected hasError1 hasError2 end_ok : Bool)
    (s : SessionState) : SessionState × List Event :=
  if s.valid_update = false then (s, [])
  else if s.fuota_on_progress = false then (s, [])
  else if hasError1 = true then
    (s, [Event.updateAbort] ++ publish_control_command s mqtt_connected
      MSG_CONTROL_CMD_FW_UPDATE_COMPLETED_FAIL)
  else if s.fw_update_completed = true then
    let s' := { s with fw_update_completed := false, fuota_on_progress := false }
    if hasError2 = true then
      (s', [Event.updateRemaining, Event.updateAbort]
        ++ publish_control_command s' mqtt_connected
          MSG_CONTROL_CMD_FW_UPDATE_COMPLETED_FAIL)
    else if end_ok = false then
      (s', [Event.updateRemaining, Event.updateEnd, Event.updateAbort]
        ++ publish_control_command s' mqtt_connected
          MSG_CONTROL_CMD_FW_UPDATE_COMPLETED_FAIL)
    else
      (s', [Event.updateRemaining, Event.updateEnd]
        ++ publish_control_command s' mqtt_connected
          MSG_CONTROL_CMD_FW_UPDATE_COMPLETED_OK
        ++ [Event.restartDevice])
  else (s, [])

/-- `manage_subscriptions` (mqtt_fuota_duino.cpp, lines 575-617).
`millis` models `millis()`; `sub_setup_ok` and `sub_data_ok` model the two
`MQTTClient->subscribe(...)` results.  Note `t0_subscribe = millis()` is
executed before the connectivity check. -/
def manage_subscriptions (millis : Nat) (mqtt_connected sub_setup_ok
    sub_data_ok : Bool) (s : SessionState) : SessionState × List Event :=
  if s.is_initialized = false then (s, [])
  else if s.subcribed_to_topic_ota_setup && s.subcribed_to_topic_ota_data then
    (s, [])
  else if (U32_MOD + millis - s.t0_subscribe) % U32_MOD < T_SUBSCRIBE then
    (s, [])
  else
    let s := { s with t0_subscribe := millis }
    if is_connected s mqtt_connected = false then (s, [])
    else
      let r1 :=
        if s.subcribed_to_topic_ota_setup = false then
          if s.topic_sub_ota_setup ≠ "" then
            ({ s with subcribed_to_topic_ota_setup := sub_setup_ok },
             [Event.subscribeTopic s.topic_sub_ota_setup])
          else (s, ([] : List Event))
        else (s, ([] : List Event))
      let r2 :=
        if r1.1.subcribed_to_topic_ota_data = false then
          if r1.1.topic_sub_ota_data ≠ "" then
            ({ r1.1 with subcribed_to_topic_ota_data := sub_data_ok },
             [Event.subscribeTopic r1.1.topic_sub_ota_data])
          else (r1.1, ([] : List Event))
        else (r1.1, ([] : List Event))
      (r2.1, r1.2 ++ r2.2)

/-- Fold a list of data-block deliveries through `mqtt_msg_rx_ota_data`:
each delivery is a pair of the block length and the `Update.write` oracle
for that call. -/
def rx_data_list (s : SessionState) (ds : List (Nat × (Nat → Nat))) :
    SessionState :=
  ds.foldl (fun st d => (mqtt_msg_rx_ota_data d.2 st d.1).1) s

/-! ### Concrete states used by witnesses and counterexamples -/

/-- A session state as it looks after initialization, while a pending
"last firmware info" request offers version 0.0.0 with size 1000 and the
device itself runs version 9.9.9. -/
def stWildcard : SessionState :=
  { ctor with
      is_initialized := true
      server_request := ServerRequest.FW_UPDATE
      fw_device := { version0 := 9, version1 := 9, version2 := 9,
                     size := 0, md5 := "" }
      fw_server := { version0 := 0, version1 := 0, version2 := 0,
                     size := 1000, md5 := "" } }

/-! ### Claim theorems -/

/-- C1: whenever a pending "last firmware info" request is handled with an
offered size in `1..MAX_APP_SIZE` and offered version triple `(0,0,0)`,
`handle_server_requests` publishes the `REQUEST_UPDATE` control frame
(`55 55 FF FF`) and sets the offer-accepted flag `valid_update`, whatever
the device's own version triple is. -/
theorem handle_server_requests_wildcard_accepts (s : SessionState)
    (conn begin_ok : Bool)
    (hreq : s.server_request = ServerRequest.FW_UPDATE)
    (hsz1 : 1 ≤ s.fw_server.size)
    (hsz2 : s.fw_server.size ≤ MAX_APP_SIZE)
    (h0 : s.fw_server.version0 = 0) (h1 : s.fw_server.version1 = 0)
    (h2 : s.fw_server.version2 = 0)
    (hinit : s.is_initialized = true) (hconn : conn = true) :
    handle_server_requests conn begin_ok s =
      ({ s with server_request := ServerRequest.NONE, valid_update := true },
       [Event.publishControl MSG_CONTROL_CMD_REQUEST_FW_UPDATE]) := by
  have hszne : ¬ (s.fw_server.size = 0 ∨ MAX_APP_SIZE < s.fw_server.size) := by
    push_neg
    exact ⟨by omega, by omega⟩
  simp [handle_server_requests, publish_control_command, is_connected,
    u32_version_from_array, hreq, h0, h1, h2, hinit, hconn, hszne]

/-- Closed witness for `handle_server_requests_wildcard_accepts` at the
concrete state `stWildcard`. -/
theorem handle_server_requests_wildcard_accepts_witness :
    handle_server_requests true false stWildcard =
      ({ stWildcard with server_request := ServerRequest.NONE,
                         valid_update := true },
       [Event.publishControl MSG_CONTROL_CMD_REQUEST_FW_UPDATE]) :=
  handle_server_requests_wildcard_accepts stWildcard true false rfl
    (by decide) (by decide) rfl rfl rfl rfl rfl

/-- A session state with a pending "last firmware info" request whose
offered version 1.2.3 does not exceed the device version 1.2.3. -/
def stRejected : SessionState :=
  { ctor with
      is_initialized := true
      server_request := ServerRequest.FW_UPDATE
      fw_device := { version0 := 1, version1 := 2, version2 := 3,
                     size := 0, md5 := "" }
      fw_server := { version0 := 1, version1 := 2, version2 := 3,
                     size := 1000, md5 := "" } }

/-- C4: whenever a pending "last firmware info" request is handled whose
offered version ordinal (`major<<16 | minor<<8 | patch`) is nonzero and at
most the device's ordinal, `handle_server_requests` publishes nothing,
emits no storage command, and changes nothing except consuming the pending
request. -/
theorem handle_server_requests_not_newer_is_silent (s : SessionState)
    (conn begin_ok : Bool)
    (hreq : s.server_request = ServerRequest.FW_UPDATE)
    (hne : u32_version_from_array s.fw_server.version0 s.fw_server.version1
        s.fw_server.version2 ≠ 0)
    (hle : u32_version_from_array s.fw_server.version0 s.fw_server.version1
        s.fw_server.version2 ≤
      u32_version_from_array s.fw_device.version0 s.fw_device.version1
        s.fw_device.version2) :
    handle_server_requests conn begin_ok s =
      ({ s with server_request := ServerRequest.NONE }, []) := by
  by_cases hsz : s.fw_server.size = 0 ∨ MAX_APP_SIZE < s.fw_server.size
  · simp [handle_server_requests, hreq, hsz]
  · simp [handle_server_requests, hreq, hsz, hne, hle]

/-- Closed witness for `handle_server_requests_not_newer_is_silent` at the
concrete state `stRejected` (offered 1.2.3 equals device 1.2.3). -/
theorem handle_server_requests_not_newer_is_silent_witness :
    handle_server_requests true false stRejected =
      ({ stRejected with server_request := ServerRequest.NONE }, []) :=
  handle_server_requests_not_newer_is_silent stRejected true false rfl
    (by decide) (by decide)

/-- A session state with a pending "start FUOTA" request, a valid offer of
size 1000 with a known MD5 hash, and no transfer yet in progress. -/
def stStart : SessionState :=
  { ctor with
      is_initialized := true
      server_request := ServerRequest.FUOTA_START
      valid_update := true
      fw_bytes_written := 77
      fw_server := { version0 := 1, version1 := 2, version2 := 3,
                     size := 1000, md5 := "0123456789ABCDEF0123456789ABCDEF" } }

/-- C7: handling a pending "start FUOTA" request first aborts any prior
storage session and calls `Update.begin` with the offered size (the event
trace starts `abort, begin(size)` in both outcomes); if begin fails, no
further event is emitted (in particular no ack) and only the pending
request is consumed, so the transfer-in-progress flag stays false when the
session was pre-transfer; if begin succeeds, `fw_bytes_written` is reset to
0, the target MD5 hash is handed to the storage writer, the
transfer-in-progress flag is set, and the `AA AA AA AA` ack pattern is
published. -/
theorem handle_server_requests_fuota_start (s : SessionState)
    (conn begin_ok : Bool)
    (hreq : s.server_request = ServerRequest.FUOTA_START)
    (hinit : s.is_initialized = true) (hconn : conn = true)
    (hpre : s.fuota_on_progress = false) :
    (begin_ok = false →
      handle_server_requests conn begin_ok s =
        ({ s with server_request := ServerRequest.NONE },
         [Event.updateAbort, Event.updateBegin s.fw_server.size])
      ∧ (handle_server_requests conn begin_ok s).1.fuota_on_progress = false)
    ∧ (begin_ok = true →
      handle_server_requests conn begin_ok s =
        ({ s with
            server_request := ServerRequest.NONE
            fw_bytes_written := 0
            fw_server := { s.fw_server with md5 := "" }
            fuota_on_progress := true },
         [Event.updateAbort, Event.updateBegin s.fw_server.size,
          Event.updateSetMD5 s.fw_server.md5,
          Event.publishControl MSG_ACK_FUOTA_START])) := by
  constructor
  · intro hb
    constructor
    · simp [handle_server_requests, hreq, hb]
    · simp [handle_server_requests, hreq, hb, hpre]
  · intro hb
    simp [handle_server_requests, publish_control_command, is_connected,
      hreq, hb, hinit, hconn]

/-- Closed witness for `handle_server_requests_fuota_start` at the concrete
state `stStart`, instantiated with a failing `Update.begin`. -/
theorem handle_server_requests_fuota_start_witness :
    (false = false →
      handle_server_requests true false stStart =
        ({ stStart with server_request := ServerRequest.NONE },
         [Event.updateAbort, Event.updateBegin stStart.fw_server.size])
      ∧ (handle_server_requests true false stStart).1.fuota_on_progress
          = false)
    ∧ (false = true →
      handle_server_requests true false stStart =
        ({ stStart with
            server_request := ServerRequest.NONE
            fw_bytes_written := 0
            fw_server := { stStart.fw_server with md5 := "" }
            fuota_on_progress := true },
         [Event.updateAbort, Event.updateBegin stStart.fw_server.size,
          Event.updateSetMD5 stStart.fw_server.md5,
          Event.publishControl MSG_ACK_FUOTA_START])) :=
  handle_server_requests_fuota_start stStart true false rfl rfl rfl rfl

/-- C6: a setup-topic payload whose length does not match the expected
length of its command byte (1 for `0x00` and `0x02`, 24 for `0x01`), or
whose command byte is outside `{0x00, 0x01, 0x02}`, leaves the whole
session state unchanged: no pending request is recorded and `fw_server` is
not mutated. -/
theorem mqtt_msg_rx_ota_setup_malformed_ignored (s : SessionState)
    (payload : List Nat)
    (h : (payload_byte payload 0 ≠ MSG_SETUP_CMD_TRIGGER_FW_UPDATE_CHECK
          ∧ payload_byte payload 0 ≠ MSG_SETUP_CMD_LAST_FW_INFO
          ∧ payload_byte payload 0 ≠ MSG_SETUP_CMD_FUOTA_START)
       ∨ (payload_byte payload 0 = MSG_SETUP_CMD_TRIGGER_FW_UPDATE_CHECK
          ∧ payload.length ≠ MSG_SETUP_CMD_TRIGGER_FW_UPDATE_CHECK_LENGTH)
       ∨ (payload_byte payload 0 = MSG_SETUP_CMD_LAST_FW_INFO
          ∧ payload.length ≠ MSG_SETUP_CMD_LAST_FW_INFO_LENGTH)
       ∨ (payload_byte payload 0 = MSG_SETUP_CMD_FUOTA_START
          ∧ payload.length ≠ MSG_SETUP_CMD_FUOTA_START_LENGTH)) :
    mqtt_msg_rx_ota_setup s payload = s := by
  by_cases hz : payload.length = 0
  · simp [mqtt_msg_rx_ota_setup, hz]
  · rcases h with ⟨ha, hb, hc⟩ | ⟨ha, hb⟩ | ⟨ha, hb⟩ | ⟨ha, hb⟩ <;>
      simp_all [mqtt_msg_rx_ota_setup,
        MSG_SETUP_CMD_TRIGGER_FW_UPDATE_CHECK,
        MSG_SETUP_CMD_TRIGGER_FW_UPDATE_CHECK_LENGTH,
        MSG_SETUP_CMD_LAST_FW_INFO, MSG_SETUP_CMD_LAST_FW_INFO_LENGTH,
        MSG_SETUP_CMD_FUOTA_START, MSG_SETUP_CMD_FUOTA_START_LENGTH]

/-- Closed witness for `mqtt_msg_rx_ota_setup_malformed_ignored`: a
"last firmware info" frame of length 10 leaves `stRejected` unchanged. -/
theorem mqtt_msg_rx_ota_setup_malformed_ignored_witness :
    mqtt_msg_rx_ota_setup stRejected [1, 2, 3, 4, 5, 6, 7, 8, 9, 10]
      = stRejected :=
  mqtt_msg_rx_ota_setup_malformed_ignored stRejected
    [1, 2, 3, 4, 5, 6, 7, 8, 9, 10] (by decide)

/-- A session state in which the offer was accepted, the transfer is in
progress and the episode is already marked complete (10 of 10 bytes
written): reachable when a data block fills the image and a further block
arrives before the next `process()` tick. -/
def stCompleted : SessionState :=
  { ctor with
      is_initialized := true
      valid_update := true
      fuota_on_progress := true
      fw_update_completed := true
      fw_bytes_written := 10
      fw_server := { t_fw_info_clear with size := 10 } }

/-- C5 counterexample: in `stCompleted` both the offer-accepted and
transfer-in-progress flags hold but the transfer is already marked
complete, so by the claim's definition the session is not `Transferring`;
yet delivering a 3-byte data block still invokes the storage writer's
write operation (with the clamped length 0). -/
theorem mqtt_msg_rx_ota_data_writes_when_completed :
    stCompleted.valid_update = true
    ∧ stCompleted.fuota_on_progress = true
    ∧ stCompleted.fw_update_completed = true
    ∧ (mqtt_msg_rx_ota_data (fun _ => 0) stCompleted 3).2
        = [Event.updateWrite 0] := by
  refine ⟨rfl, rfl, rfl, ?_⟩
  decide

/-- C5 (amended): the data handler is inert exactly when the offer-accepted
flag or the transfer-in-progress flag is unset — regardless of the
completed flag: then `fw_bytes_written` is unchanged (the state is
returned as is) and the storage writer is never invoked (no event). -/
theorem mqtt_msg_rx_ota_data_inert_when_not_transferring
    (wr : Nat → Nat) (s : SessionState) (length : Nat)
    (h : ¬ (s.valid_update = true ∧ s.fuota_on_progress = true)) :
    mqtt_msg_rx_ota_data wr s length = (s, []) := by
  cases hv : s.valid_update <;> cases hf : s.fuota_on_progress <;>
    simp_all [mqtt_msg_rx_ota_data]

/-- Closed witness for `mqtt_msg_rx_ota_data_inert_when_not_transferring`
at the freshly constructed state. -/
theorem mqtt_msg_rx_ota_data_inert_witness :
    mqtt_msg_rx_ota_data (fun n => n) ctor 5 = (ctor, []) :=
  mqtt_msg_rx_ota_data_inert_when_not_transferring (fun n => n) ctor 5
    (by decide)

/-- C10: `mqtt_msg_rx` returns `false` and leaves the session untouched
(no event, no state change) whenever one of the two subscription flags is
still unset, or the topic matches neither the bound setup topic nor the
bound data topic. -/
theorem mqtt_msg_rx_unexpected_ignored (wr : Nat → Nat) (s : SessionState)
    (topic : String) (payload : List Nat)
    (h : (s.subcribed_to_topic_ota_setup = false
          ∨ s.subcribed_to_topic_ota_data = false)
       ∨ (topic ≠ s.topic_sub_ota_setup ∧ topic ≠ s.topic_sub_ota_data)) :
    mqtt_msg_rx wr s topic payload = (s, false, []) := by
  rcases h with h | ⟨h1, h2⟩
  · simp [mqtt_msg_rx, h]
  · by_cases hs : s.subcribed_to_topic_ota_setup = false
        ∨ s.subcribed_to_topic_ota_data = false
    · simp [mqtt_msg_rx, hs]
    · simp [mqtt_msg_rx, hs, h1, h2]

/-- Closed witness for `mqtt_msg_rx_unexpected_ignored`: a message on an
unrelated topic against a fully subscribed session. -/
theorem mqtt_msg_rx_unexpected_ignored_witness :
    mqtt_msg_rx (fun n => n)
      { stStart with
          subcribed_to_topic_ota_setup := true
          subcribed_to_topic_ota_data := true
          topic_sub_ota_setup := "/dev/ota/setup"
          topic_sub_ota_data := "/dev/ota/data" }
      "/dev/ota/other" [1, 2, 3]
    = ({ stStart with
          subcribed_to_topic_ota_setup := true
          subcribed_to_topic_ota_data := true
          topic_sub_ota_setup := "/dev/ota/setup"
          topic_sub_ota_data := "/dev/ota/data" }, false, []) :=
  mqtt_msg_rx_unexpected_ignored (fun n => n) _ "/dev/ota/other" [1, 2, 3]
    (Or.inr (by decide))

/-- An initialized session with a transfer in progress (50 of 100 bytes
written, episode not yet complete). -/
def stTransfer : SessionState :=
  { ctor with
      is_initialized := true
      valid_update := true
      fuota_on_progress := true
      fw_bytes_written := 50
      fw_server := { t_fw_info_clear with size := 100 } }

/-- C3 counterexample: at `stTransfer` (connected, transfer in progress)
with the storage writer reporting an error, the tick aborts storage and
publishes `COMPLETED_FAIL`, but the session state is returned completely
unchanged — `valid_update` and `fuota_on_progress` are still set, so the
session does not return to Idle. -/
theorem handle_received_fw_data_error_keeps_flags :
    (handle_received_fw_data true true false false stTransfer).1 = stTransfer
    ∧ stTransfer.fuota_on_progress = true
    ∧ stTransfer.valid_update = true
    ∧ (handle_received_fw_data true true false false stTransfer).2
        = [Event.updateAbort,
           Event.publishControl MSG_CONTROL_CMD_FW_UPDATE_COMPLETED_FAIL] := by
  refine ⟨?_, rfl, rfl, ?_⟩ <;> decide

/-- C3 (amended): on a tick with a transfer in progress and a storage
error, the session aborts storage and publishes the `COMPLETED_FAIL`
control frame; but the flags return to Idle only partially: in the
during-transfer error path no flag is cleared at all (the state is
unchanged), and in the finalize-error paths (completed episode with an
error after draining, or a failed `Update.end`) exactly
`fw_update_completed` and `fuota_on_progress` are cleared while
`valid_update` stays set. -/
theorem handle_received_fw_data_error_paths (s : SessionState)
    (conn hasError1 hasError2 end_ok : Bool)
    (hinit : s.is_initialized = true) (hconn : conn = true)
    (hv : s.valid_update = true) (hp : s.fuota_on_progress = true) :
    (hasError1 = true →
      handle_received_fw_data conn hasError1 hasError2 end_ok s =
        (s, [Event.updateAbort,
             Event.publishControl MSG_CONTROL_CMD_FW_UPDATE_COMPLETED_FAIL]))
    ∧ (hasError1 = false → s.fw_update_completed = true → hasError2 = true →
      handle_received_fw_data conn hasError1 hasError2 end_ok s =
        ({ s with fw_update_completed := false, fuota_on_progress := false },
         [Event.updateRemaining, Event.updateAbort,
          Event.publishControl MSG_CONTROL_CMD_FW_UPDATE_COMPLETED_FAIL]))
    ∧ (hasError1 = false → s.fw_update_completed = true → hasError2 = false →
        end_ok = false →
      handle_received_fw_data conn hasError1 hasError2 end_ok s =
        ({ s with fw_update_completed := false, fuota_on_progress := false },
         [Event.updateRemaining, Event.updateEnd, Event.updateAbort,
          Event.publishControl MSG_CONTROL_CMD_FW_UPDATE_COMPLETED_FAIL])) := by
  refine ⟨fun h1 => ?_, fun h1 hc h2 => ?_, fun h1 hc h2 he => ?_⟩ <;>
    simp [handle_received_fw_data, publish_control_command, is_connected,
      hinit, hconn, hv, hp, h1, *]

/-- Closed witness for `handle_received_fw_data_error_paths` at the state
`stTransfer` with the episode marked complete and `Update.end` failing. -/
theorem handle_received_fw_data_error_paths_witness :
    (false = true →
      handle_received_fw_data true false false false
          { stTransfer with fw_update_completed := true } =
        ({ stTransfer with fw_update_completed := true },
         [Event.updateAbort,
          Event.publishControl MSG_CONTROL_CMD_FW_UPDATE_COMPLETED_FAIL]))
    ∧ (false = false →
        { stTransfer with fw_update_completed := true }.fw_update_completed
          = true → false = true →
      handle_received_fw_data true false false false
          { stTransfer with fw_update_completed := true } =
        ({ { stTransfer with fw_update_completed := true } with
            fw_update_completed := false, fuota_on_progress := false },
         [Event.updateRemaining, Event.updateAbort,
          Event.publishControl MSG_CONTROL_CMD_FW_UPDATE_COMPLETED_FAIL]))
    ∧ (false = false →
        { stTransfer with fw_update_completed := true }.fw_update_completed
          = true → false = false → false = false →
      handle_received_fw_data true false false false
          { stTransfer with fw_update_completed := true } =
        ({ { stTransfer with fw_update_completed := true } with
            fw_update_completed := false, fuota_on_progress := false },
         [Event.updateRemaining, Event.updateEnd, Event.updateAbort,
          Event.publishControl MSG_CONTROL_CMD_FW_UPDATE_COMPLETED_FAIL])) :=
  handle_received_fw_data_error_paths
    { stTransfer with fw_update_completed := true }
    true false false false rfl rfl rfl rfl

/-- An initialized session that has not yet subscribed to its topics and
whose last subscription attempt was at time 0. -/
def stUnsubscribed : SessionState :=
  { ctor with is_initialized := true, t0_subscribe := 0 }

/-- C8 counterexample: at `stUnsubscribed` with the retry interval elapsed
(`millis = 5000`) and the transport disconnected, the supervisor tick is
not a no-op: no subscribe is attempted, yet the last-attempt timestamp is
updated from 0 to 5000 even though no (re-)subscribe attempt is made. -/
theorem manage_subscriptions_disconnected_updates_t0 :
    is_connected stUnsubscribed false = false
    ∧ stUnsubscribed.t0_subscribe = 0
    ∧ (manage_subscriptions 5000 false false false stUnsubscribed).1.t0_subscribe
        = 5000
    ∧ (manage_subscriptions 5000 false false false stUnsubscribed).2 = []
    ∧ (manage_subscriptions 5000 false false false stUnsubscribed).1
        ≠ stUnsubscribed := by
  refine ⟨rfl, rfl, ?_, ?_, ?_⟩ <;> decide

/-- C8 (amended): on a supervisor tick where some inbound topic is not yet
subscribed and the retry interval since the last attempt has elapsed, if
the transport is not connected then no subscribe is attempted and the only
supervisor state change is that the last-attempt timestamp `t0_subscribe`
is recorded (before the connectivity check), so the timestamp is updated
even though no (re-)subscribe attempt is made. -/
theorem manage_subscriptions_disconnected_records_t0 (millis : Nat)
    (conn sub_setup_ok sub_data_ok : Bool) (s : SessionState)
    (hinit : s.is_initialized = true)
    (hnotboth : ¬ (s.subcribed_to_topic_ota_setup = true
        ∧ s.subcribed_to_topic_ota_data = true))
    (helapsed : ¬ ((U32_MOD + millis - s.t0_subscribe) % U32_MOD
        < T_SUBSCRIBE))
    (hconn : conn = false) :
    manage_subscriptions millis conn sub_setup_ok sub_data_ok s =
      ({ s with t0_subscribe := millis }, []) := by
  cases h1 : s.subcribed_to_topic_ota_setup <;>
    cases h2 : s.subcribed_to_topic_ota_data <;>
    simp_all [manage_subscriptions, is_connected]

/-- Closed witness for `manage_subscriptions_disconnected_records_t0` at
`stUnsubscribed` with `millis = 5000`. -/
theorem manage_subscriptions_disconnected_records_t0_witness :
    manage_subscriptions 5000 false false false stUnsubscribed =
      ({ stUnsubscribed with t0_subscribe := 5000 }, []) :=
  manage_subscriptions_disconnected_records_t0 5000 false false false
    stUnsubscribed rfl (by decide) (by decide) rfl

/-- C9: the implementation's `init` (mqtt_fuota_duino.cpp, lines 150-187)
takes no current-firmware information at all — unlike its declaration in
mqtt_fuota_duino.h, lines 100-103, whose `current_fw_info` parameter is
documented to set the current FW version — so after a successful
initialization `fw_device` is still the all-zero record left by the
constructor, not a caller-supplied value; and `init` never writes
`fw_device` for any input state. -/
theorem init_leaves_fw_device_cleared :
    (init ctor true "AA:BB:CC:DD:EE:FF").2 = true
    ∧ ((init ctor true "AA:BB:CC:DD:EE:FF").1).is_initialized = true
    ∧ ((init ctor true "AA:BB:CC:DD:EE:FF").1).fw_device = t_fw_info_clear
    ∧ ∀ s : SessionState, ∀ cv : Bool, ∀ d : String,
        ((init s cv d).1).fw_device = s.fw_device := by
  refine ⟨rfl, rfl, rfl, fun s cv d => ?_⟩
  unfold init
  split
  · rfl
  · split <;> rfl

/-- A freshly started 10-byte transfer: offer accepted, transfer in
progress, nothing written yet. -/
def stOverflow : SessionState :=
  { ctor with
      is_initialized := true
      valid_update := true
      fuota_on_progress := true
      fw_server := { t_fw_info_clear with size := 10 } }

/-- A storage-write oracle that always reports at most the requested
number of bytes written (at most 15 of them). -/
def wrMod16 : Nat → Nat := fun n => n % 16

/-- The data handler never changes the offered firmware info. -/
theorem mqtt_msg_rx_ota_data_fw_server (wr : Nat → Nat) (s : SessionState)
    (length : Nat) :
    ((mqtt_msg_rx_ota_data wr s length).1).fw_server = s.fw_server := by
  unfold mqtt_msg_rx_ota_data
  split
  · rfl
  · split <;> rfl

/-- One data-block delivery keeps `fw_bytes_written ≤ fw_server.size`,
provided the write oracle reports at most the requested count and the
block length cannot overflow the `uint32_t` sum in the clamp check. -/
theorem rx_data_step_le (wr : Nat → Nat) (hw : ∀ n, wr n ≤ n)
    (s : SessionState) (length : Nat)
    (hb : s.fw_bytes_written ≤ s.fw_server.size)
    (hsz : s.fw_server.size < U32_MOD)
    (hlen : length < U32_MOD - s.fw_server.size) :
    ((mqtt_msg_rx_ota_data wr s length).1).fw_bytes_written
      ≤ s.fw_server.size := by
  unfold mqtt_msg_rx_ota_data
  split
  · exact hb
  split
  · exact hb
  simp only
  split
  · have h1 : (U32_MOD + s.fw_server.size - s.fw_bytes_written) % U32_MOD
        = s.fw_server.size - s.fw_bytes_written := by
      have he : U32_MOD + s.fw_server.size - s.fw_bytes_written
          = U32_MOD + (s.fw_server.size - s.fw_bytes_written) := by omega
      rw [he, Nat.add_mod_left, Nat.mod_eq_of_lt (by omega)]
    rw [h1]
    have h2 := hw (s.fw_server.size - s.fw_bytes_written)
    rw [Nat.mod_eq_of_lt (by omega)]
    omega
  · rename_i hnc
    have hwl := hw length
    rw [Nat.mod_eq_of_lt (show s.fw_bytes_written + length < U32_MOD by omega)]
      at hnc
    rw [Nat.mod_eq_of_lt (by omega)]
    omega

/-- C2 (amended): across any sequence of data-block deliveries, if each
storage write reports at most the requested number of bytes and each
delivered block length is small enough that the `uint32_t` sum
`fw_bytes_written + length` in the clamp check cannot wrap (any length
below `2^32 - fw_server.size` suffices), then `fw_bytes_written` never
exceeds the offered size `fw_server.size`, including when the final block
overshoots the boundary. -/
theorem rx_data_list_bytes_written_le_size (s : SessionState)
    (ds : List (Nat × (Nat → Nat)))
    (hw : ∀ d ∈ ds, ∀ n, d.2 n ≤ n)
    (hlen : ∀ d ∈ ds, d.1 < U32_MOD - s.fw_server.size)
    (hb : s.fw_bytes_written ≤ s.fw_server.size)
    (hsz : s.fw_server.size < U32_MOD) :
    (rx_data_list s ds).fw_bytes_written ≤ s.fw_server.size := by
  induction ds generalizing s with
  | nil => simpa [rx_data_list] using hb
  | cons d tl ih =>
    have hstep := rx_data_step_le d.2 (hw d (by simp)) s d.1 hb hsz
      (hlen d (by simp))
    have hfs := mqtt_msg_rx_ota_data_fw_server d.2 s d.1
    have hrec := ih ((mqtt_msg_rx_ota_data d.2 s d.1).1)
      (fun d' hd' => hw d' (by simp [hd']))
      (fun d' hd' => by rw [hfs]; exact hlen d' (by simp [hd']))
      (by rw [hfs]; exact hstep) (by rw [hfs]; exact hsz)
    rw [hfs] at hrec
    simpa [rx_data_list] using hrec

/-- Closed witness for `rx_data_list_bytes_written_le_size`: feeding 5 then
20 bytes into a 10-byte transfer (the second block overshoots) leaves the
counter at most the offered size. -/
theorem rx_data_list_bytes_written_le_size_witness :
    (rx_data_list stOverflow [(5, wrMod16), (20, wrMod16)]).fw_bytes_written
      ≤ stOverflow.fw_server.size :=
  rx_data_list_bytes_written_le_size stOverflow [(5, wrMod16), (20, wrMod16)]
    (by intro d hd; fin_cases hd <;> exact fun n => Nat.mod_le n 16)
    (by intro d hd; fin_cases hd <;> decide)
    (by decide) (by decide)

/-- C2 counterexample: with the offered size 10 and nothing written yet, a
first full 10-byte block and then a block of length `2^32 - 1` make the
`uint32_t` sum `fw_bytes_written + length` wrap to 9 in the clamp check,
so no clamping happens; a write oracle that always reports at most the
requested count (here `n % 16`) then reports 15 bytes written and the
counter reaches 25, exceeding the offered size 10. -/
theorem rx_data_list_overflow_exceeds_size :
    (∀ n, wrMod16 n ≤ n)
    ∧ stOverflow.fw_bytes_written = 0
    ∧ stOverflow.fw_server.size = 10
    ∧ (rx_data_list stOverflow
        [(10, wrMod16), (4294967295, wrMod16)]).fw_bytes_written = 25 := by
  refine ⟨fun n => Nat.mod_le n 16, rfl, rfl, ?_⟩
  decide

end MqttFuota
